import Mathlib

/-!
Verification development for the school-fee record application
(single source file `app.py`).

The development shallowly embeds the four core components documented in
the specification: the identity generator (`generate_student_id`), the
credential store (`hash_password`, `authenticate_user`, `create_user`,
user deletion), the record store (`initialize_csv`, `load_data`,
`update_data`, the reinitialize tool) and the report engine (the
class-summary metrics and the student yearly report).

Modelling conventions:
* CSV cells are `Option String` (`none` models a pandas NaN / empty cell).
* Loaded fee records for the report engine carry typed fields
  (`Option Nat` for currency columns, matching pandas numeric columns
  where NaN is `none`); pandas `sum` skips NaN, `== 0` on NaN is false,
  and `nunique` ignores NaN, all of which the model reproduces.
* The JSON user store is an association list in insertion order,
  mirroring a Python dict.
* Machine 32-bit arithmetic inside MD5/SHA-256 is `Nat` with explicit
  reductions modulo `2 ^ 32`.
-/

namespace SchoolFees

/-! ## Report engine: data model -/

/-- One loaded fee record, as produced by `load_data` and consumed by the
report engine. Fields follow the 12 CSV columns; numeric columns are
`Option Nat` (NaN is `none`). -/
structure FeeRecord where
  id : Option String
  studentName : Option String
  classCategory : Option String
  classSection : Option String
  month : Option String
  monthlyFee : Option Nat
  annualCharges : Option Nat
  admissionFee : Option Nat
  receivedAmount : Option Nat
  date : Option String
  signature : Option String
  entryTimestamp : Option String
deriving DecidableEq, Repr

/-- The fixed 12-month academic calendar used by the application
(`months` / `all_months` in the source, April first). -/
def all_months : List String :=
  ["APRIL", "MAY", "JUNE", "JULY", "AUGUST", "SEPTEMBER",
   "OCTOBER", "NOVEMBER", "DECEMBER", "JANUARY", "FEBRUARY", "MARCH"]

/-- Filtering by class category: `df[df["Class Category"] == category]`. -/
def class_df (records : List FeeRecord) (category : String) : List FeeRecord :=
  records.filter (fun r => r.classCategory == some category)

/-- Sum of the Received Amount column; pandas `sum` skips NaN. -/
def sumReceived (rows : List FeeRecord) : Nat :=
  rows.foldr (fun r acc => r.receivedAmount.getD 0 + acc) 0

/-- Sum of the Monthly Fee column; pandas `sum` skips NaN. -/
def sumFee (rows : List FeeRecord) : Nat :=
  rows.foldr (fun r acc => r.monthlyFee.getD 0 + acc) 0

/-- Lexicographic comparison of character lists by code point, the
order Python uses on strings. -/
def listLtb : List Char → List Char → Bool
  | [], [] => false
  | [], _ :: _ => true
  | _ :: _, [] => false
  | a :: as, b :: bs =>
      if a.toNat < b.toNat then true
      else if b.toNat < a.toNat then false
      else listLtb as bs

/-- Lexicographic string comparison by code point. -/
def strLtb (s t : String) : Bool := listLtb s.data t.data

/-- Insert a string into a list that is kept in ascending order; helper
for the sorted grouping keys produced by pandas `groupby`. -/
def insertStr (s : String) : List String → List String
  | [] => [s]
  | t :: ts => if strLtb s t then s :: t :: ts else t :: insertStr s ts

/-- Ascending (lexicographic) sort of strings; pandas `groupby` returns
its keys in this order (its default `sort=True`). -/
def sortStrings (l : List String) : List String :=
  l.foldr insertStr []

/-- The rows of a class that belong to one month label. -/
def monthRows (rows : List FeeRecord) (m : String) : List FeeRecord :=
  rows.filter (fun r => r.month == some m)

/-- Model of `class_df.groupby("Month")["Received Amount"].sum()`:
the distinct non-NaN month labels in ascending string order, each paired
with the sum of Received Amount over its rows. -/
def monthly_summary (records : List FeeRecord) (category : String) :
    List (String × Nat) :=
  let rows := class_df records category
  (sortStrings ((rows.filterMap (fun r => r.month)).dedup)).map
    (fun m => (m, sumReceived (monthRows rows m)))

/-- Model of `class_df[class_df["Monthly Fee"] == 0]["Student Name"]`:
the student names (NaN dropped) of the class rows whose Monthly Fee
equals 0. `nunique` is the length of its dedup. -/
def unpaidNames (records : List FeeRecord) (category : String) : List String :=
  (((class_df records category).filter
      (fun r => r.monthlyFee == some 0)).filterMap (fun r => r.studentName)).dedup

/-- The Unpaid Students metric of the class summary:
`class_df[class_df["Monthly Fee"] == 0]["Student Name"].nunique()`. -/
def unpaidStudents (records : List FeeRecord) (category : String) : Nat :=
  (unpaidNames records category).length

/-! ## Report engine: student yearly report -/

/-- Rows that match one student and one class exactly
(`df[(df["Student Name"] == s) & (df["Class Category"] == c)]`). -/
def student_data (records : List FeeRecord) (student category : String) :
    List FeeRecord :=
  records.filter
    (fun r => r.studentName == some student && r.classCategory == some category)

/-- One row of the monthly report table shown in the yearly report. -/
structure MonthlyReportRow where
  month : String
  monthlyFee : Nat
  receivedAmount : Nat
  status : String
deriving DecidableEq, Repr

/-- Model of `student_data.groupby("Month").agg(sum)` over the Monthly
Fee and Received Amount columns: distinct month labels in ascending
order, each with the two sums. -/
def monthly_data (rows : List FeeRecord) : List (String × Nat × Nat) :=
  (sortStrings ((rows.filterMap (fun r => r.month)).dedup)).map
    (fun m => (m, sumFee (monthRows rows m), sumReceived (monthRows rows m)))

/-- Model of the left merge of the fixed 12-month frame with
`monthly_data`, the `fillna(0)`, and the Status column
(`"Paid" if row["Monthly Fee"] > 0 else "Unpaid"`). -/
def monthly_report (rows : List FeeRecord) : List MonthlyReportRow :=
  all_months.map (fun m =>
    match (monthly_data rows).lookup m with
    | some (f, r) =>
        { month := m, monthlyFee := f, receivedAmount := r,
          status := if f > 0 then "Paid" else "Unpaid" }
    | none =>
        { month := m, monthlyFee := 0, receivedAmount := 0, status := "Unpaid" })

/-- The aggregates of the Student Yearly Report page. -/
structure YearlyReport where
  totalMonthlyFee : Nat
  annualCharges : Nat
  admissionFee : Nat
  totalReceived : Nat
  perMonth : List MonthlyReportRow
deriving DecidableEq, Repr

/-- Model of the Student Yearly Report computation: filter by student and
class, sum Monthly Fee and Received Amount, take Annual Charges and
Admission Fee from the first matching row, and build the 12-month table. -/
def studentYearlyReport (records : List FeeRecord) (student category : String) :
    YearlyReport :=
  let sd := student_data records student category
  { totalMonthlyFee := sumFee sd
    annualCharges := ((sd.head?).bind (fun r => r.annualCharges)).getD 0
    admissionFee := ((sd.head?).bind (fun r => r.admissionFee)).getD 0
    totalReceived := sumReceived sd
    perMonth := monthly_report sd }

/-! ## Record store: columns and raw CSV files -/

/-- The 12 fixed CSV columns. -/
inductive Col
  | id | studentName | classCategory | classSection | month
  | monthlyFee | annualCharges | admissionFee
  | receivedAmount | date | signature | entryTimestamp
deriving DecidableEq, Repr

/-- The `expected_columns` list of the source, in its fixed order. -/
def expected_columns : List Col :=
  [.id, .studentName, .classCategory, .classSection, .month,
   .monthlyFee, .annualCharges, .admissionFee,
   .receivedAmount, .date, .signature, .entryTimestamp]

/-- A parsed CSV file: a header (the list of present columns) and the
cell rows. A cell is `Option String`; `none` models NaN / empty. -/
structure RawFile where
  cols : List Col
  cells : List (List (Option String))
deriving DecidableEq, Repr

/-- A loaded DataFrame row over the full 12-column schema. -/
structure Row where
  id : Option String
  studentName : Option String
  classCategory : Option String
  classSection : Option String
  month : Option String
  monthlyFee : Option String
  annualCharges : Option String
  admissionFee : Option String
  receivedAmount : Option String
  date : Option String
  signature : Option String
  entryTimestamp : Option String
deriving DecidableEq, Repr

/-- Cell of a raw row under a given header; `none` when the column is
absent from the header (pandas would back-fill it with NaN). -/
def getCol (cols : List Col) (row : List (Option String)) (c : Col) :
    Option String :=
  match cols.findIdx? (fun c2 => c2 == c) with
  | some i => row.getD i none
  | none => none

/-- Projection of a `Row` at a column label. -/
def Row.get (r : Row) : Col → Option String
  | .id => r.id
  | .studentName => r.studentName
  | .classCategory => r.classCategory
  | .classSection => r.classSection
  | .month => r.month
  | .monthlyFee => r.monthlyFee
  | .annualCharges => r.annualCharges
  | .admissionFee => r.admissionFee
  | .receivedAmount => r.receivedAmount
  | .date => r.date
  | .signature => r.signature
  | .entryTimestamp => r.entryTimestamp

/-- Reading one raw row into the 12-column schema, back-filling any
column missing from the header with an absent value. -/
def rowToRecord (cols : List Col) (row : List (Option String)) : Row :=
  { id := getCol cols row .id
    studentName := getCol cols row .studentName
    classCategory := getCol cols row .classCategory
    classSection := getCol cols row .classSection
    month := getCol cols row .month
    monthlyFee := getCol cols row .monthlyFee
    annualCharges := getCol cols row .annualCharges
    admissionFee := getCol cols row .admissionFee
    receivedAmount := getCol cols row .receivedAmount
    date := getCol cols row .date
    signature := getCol cols row .signature
    entryTimestamp := getCol cols row .entryTimestamp }

/-! ## Record store: date normalization

Models the `pd.to_datetime(...).dt.strftime(...)` normalization of the
Date and Entry Timestamp columns. The model parses exactly the date
shapes the application itself writes — `DD-MM-YYYY` (the normalized and
editor form) and `YYYY-MM-DD` (the entry form), plus the corresponding
timestamp shapes `DD-MM-YYYY HH:MM` and `YYYY-MM-DD HH:MM:SS` — and
maps every other string to an absent value, as `errors="coerce"` does. -/

/-- Numeric value of a digit character. -/
def digVal (c : Char) : Nat := c.toNat - 48

/-- The character of a decimal digit. -/
def digitChar (d : Nat) : Char := Char.ofNat (48 + d)

/-- Two-digit zero-padded decimal rendering (strftime `%d`, `%m`, `%H`,
`%M`). -/
def pad2 (n : Nat) : List Char := [digitChar (n / 10), digitChar (n % 10)]

/-- Four-digit zero-padded decimal rendering (strftime `%Y`). -/
def pad4 (n : Nat) : List Char :=
  [digitChar (n / 1000), digitChar (n / 100 % 10),
   digitChar (n / 10 % 10), digitChar (n % 10)]

/-- Value of two digit characters. -/
def twoDig (a b : Char) : Nat := digVal a * 10 + digVal b

/-- Value of four digit characters. -/
def fourDig (a b c d : Char) : Nat :=
  ((digVal a * 10 + digVal b) * 10 + digVal c) * 10 + digVal d

/-- Consume two digit characters. -/
def parse2 : List Char → Option (Nat × List Char)
  | a :: b :: rest =>
      if a.isDigit ∧ b.isDigit then some (twoDig a b, rest) else none
  | _ => none

/-- Consume four digit characters. -/
def parse4 : List Char → Option (Nat × List Char)
  | a :: b :: c :: d :: rest =>
      if a.isDigit ∧ b.isDigit ∧ c.isDigit ∧ d.isDigit then
        some (fourDig a b c d, rest)
      else none
  | _ => none

/-- Consume one expected literal character. -/
def expectChar (c : Char) : List Char → Option (List Char)
  | a :: rest => if a = c then some rest else none
  | _ => none

/-- Succeed only at the end of the input. -/
def expectEnd : List Char → Option Unit
  | [] => some ()
  | _ => none

/-- Parse a `DD-MM-YYYY` date (the `dayfirst=True` reading). -/
def parseDMY (s : String) : Option (Nat × Nat × Nat) := do
  let (d, r1) ← parse2 s.data
  let r2 ← expectChar '-' r1
  let (mo, r3) ← parse2 r2
  let r4 ← expectChar '-' r3
  let (y, r5) ← parse4 r4
  let _ ← expectEnd r5
  if 1 ≤ d ∧ d ≤ 31 ∧ 1 ≤ mo ∧ mo ≤ 12 then some (d, mo, y) else none

/-- Parse a `YYYY-MM-DD` date (the form the entry path writes). -/
def parseYMD (s : String) : Option (Nat × Nat × Nat) := do
  let (y, r1) ← parse4 s.data
  let r2 ← expectChar '-' r1
  let (mo, r3) ← parse2 r2
  let r4 ← expectChar '-' r3
  let (d, r5) ← parse2 r4
  let _ ← expectEnd r5
  if 1 ≤ d ∧ d ≤ 31 ∧ 1 ≤ mo ∧ mo ≤ 12 then some (d, mo, y) else none

/-- Best-effort date parse: day-first reading, then the entry form. -/
def parseDate (s : String) : Option (Nat × Nat × Nat) :=
  match parseDMY s with
  | some t => some t
  | none => parseYMD s

/-- Render a date as `DD-MM-YYYY` (strftime `%d-%m-%Y`). -/
def fmtDMY (t : Nat × Nat × Nat) : String :=
  String.mk (pad2 t.1 ++ '-' :: (pad2 t.2.1 ++ '-' :: pad4 t.2.2))

/-- Parse a normalized `DD-MM-YYYY HH:MM` timestamp. -/
def parseTSnorm (s : String) : Option (Nat × Nat × Nat × Nat × Nat) := do
  let (d, r1) ← parse2 s.data
  let r2 ← expectChar '-' r1
  let (mo, r3) ← parse2 r2
  let r4 ← expectChar '-' r3
  let (y, r5) ← parse4 r4
  let r6 ← expectChar ' ' r5
  let (hh, r7) ← parse2 r6
  let r8 ← expectChar ':' r7
  let (mm, r9) ← parse2 r8
  let _ ← expectEnd r9
  if 1 ≤ d ∧ d ≤ 31 ∧ 1 ≤ mo ∧ mo ≤ 12 ∧ hh ≤ 23 ∧ mm ≤ 59 then
    some (d, mo, y, hh, mm)
  else none

/-- Parse an entry-form `YYYY-MM-DD HH:MM:SS` timestamp; the seconds are
validated and then dropped, as strftime `%d-%m-%Y %H:%M` does. -/
def parseTSentry (s : String) : Option (Nat × Nat × Nat × Nat × Nat) := do
  let (y, r1) ← parse4 s.data
  let r2 ← expectChar '-' r1
  let (mo, r3) ← parse2 r2
  let r4 ← expectChar '-' r3
  let (d, r5) ← parse2 r4
  let r6 ← expectChar ' ' r5
  let (hh, r7) ← parse2 r6
  let r8 ← expectChar ':' r7
  let (mm, r9) ← parse2 r8
  let r10 ← expectChar ':' r9
  let (ss, r11) ← parse2 r10
  let _ ← expectEnd r11
  if 1 ≤ d ∧ d ≤ 31 ∧ 1 ≤ mo ∧ mo ≤ 12 ∧ hh ≤ 23 ∧ mm ≤ 59 ∧ ss ≤ 59 then
    some (d, mo, y, hh, mm)
  else none

/-- Best-effort timestamp parse. -/
def parseTS (s : String) : Option (Nat × Nat × Nat × Nat × Nat) :=
  match parseTSnorm s with
  | some t => some t
  | none => parseTSentry s

/-- Render a timestamp as `DD-MM-YYYY HH:MM` (strftime
`%d-%m-%Y %H:%M`). -/
def fmtTS (t : Nat × Nat × Nat × Nat × Nat) : String :=
  String.mk (pad2 t.1 ++ '-' :: (pad2 t.2.1 ++ '-' :: (pad4 t.2.2.1 ++
    ' ' :: (pad2 t.2.2.2.1 ++ ':' :: pad2 t.2.2.2.2))))

/-- Normalization of a Date cell: parse, reformat, coerce failures to
absent. -/
def normDateCell (c : Option String) : Option String :=
  c.bind (fun s => (parseDate s).map fmtDMY)

/-- Normalization of an Entry Timestamp cell. -/
def normTSCell (c : Option String) : Option String :=
  c.bind (fun s => (parseTS s).map fmtTS)

/-- Row normalization performed by `load_data`: the Date and Entry
Timestamp columns are reformatted, everything else is untouched. -/
def normRow (r : Row) : Row :=
  { r with date := normDateCell r.date,
           entryTimestamp := normTSCell r.entryTimestamp }

/-- A row that is empty across all columns (`dropna(how="all")` removes
exactly these). -/
def rowAllEmpty (r : Row) : Bool :=
  r.id.isNone && r.studentName.isNone && r.classCategory.isNone &&
  r.classSection.isNone && r.month.isNone && r.monthlyFee.isNone &&
  r.annualCharges.isNone && r.admissionFee.isNone &&
  r.receivedAmount.isNone && r.date.isNone && r.signature.isNone &&
  r.entryTimestamp.isNone

/-- State of the backing file as seen by `load_data`: missing, present
but unparseable, or parsed. -/
inductive LoadInput
  | absent
  | unparseable
  | parsed (f : RawFile)
deriving DecidableEq, Repr

/-- Model of `load_data`: empty result when the file is absent or does
not parse; otherwise each raw row is read against the header (missing
columns back-filled), dates are normalized, and rows that are empty
across all columns are dropped. -/
def load_data : LoadInput → List Row
  | .absent => []
  | .unparseable => []
  | .parsed f =>
      (f.cells.map (fun row => normRow (rowToRecord f.cols row))).filter
        (fun r => !(rowAllEmpty r))

/-- Serialization of a loaded row back to cells in the canonical column
order. -/
def serializeRow (r : Row) : List (Option String) :=
  [r.id, r.studentName, r.classCategory, r.classSection, r.month,
   r.monthlyFee, r.annualCharges, r.admissionFee, r.receivedAmount,
   r.date, r.signature, r.entryTimestamp]

/-- Model of `update_data`: rewrite the whole backing file from the
given rows (`updated_df.to_csv(CSV_FILE, index=False)`). -/
def update_data (rows : List Row) : RawFile :=
  { cols := expected_columns, cells := rows.map serializeRow }

/-! ## Record store: initialization and the reinitialize tool -/

/-- The column reconciliation performed by `initialize_csv` on an
existing file: append each missing expected column (as `df[col] =
np.nan` does) and keep all rows. -/
def reconcile_columns (f : RawFile) : RawFile :=
  let missing := expected_columns.filter (fun c => !(f.cols.contains c))
  { cols := f.cols ++ missing,
    cells := f.cells.map (fun row => row ++ List.replicate missing.length none) }

/-- Model of `initialize_csv`: create a fresh header-only file when none
exists; otherwise reconcile the columns of the existing file, keeping
its rows. -/
def initialize_csv : Option RawFile → Option RawFile
  | none => some { cols := expected_columns, cells := [] }
  | some f => some (reconcile_columns f)

/-- Relevant on-disk state for the System Tools page: the record store
file and the set of backup files. -/
structure SysState where
  csvFile : Option RawFile
  backups : List (String × RawFile)
deriving DecidableEq, Repr

/-- Model of the Reinitialize CSV File button: when a record store file
exists it is first copied to `backup_<timestamp>.csv`; then
`initialize_csv` runs. -/
def reinitialize (ts : String) (s : SysState) : SysState :=
  let s1 : SysState :=
    match s.csvFile with
    | some f => { s with backups := ("backup_" ++ ts ++ ".csv", f) :: s.backups }
    | none => s
  { s1 with csvFile := initialize_csv s1.csvFile }

/-! ## Identity generator: MD5 over `Nat` bytes

The source joins the student name and the class category with an
underscore, UTF-8 encodes the result, and takes
`md5(bytes).hexdigest()[:8].upper()`. The MD5 compression is modelled
over `Nat` with explicit reductions modulo `2 ^ 32 = 4294967296`. -/

/-- Bitwise complement within 32 bits. -/
def bnot32 (x : Nat) : Nat := x ^^^ 4294967295

/-- Left rotation of a 32-bit value. -/
def rotl32 (x s : Nat) : Nat :=
  ((x <<< s) % 4294967296) ||| (x >>> (32 - s))

/-- Right rotation of a 32-bit value. -/
def rotr32 (x s : Nat) : Nat :=
  (x >>> s) ||| ((x <<< (32 - s)) % 4294967296)

/-- The UTF-8 bytes of a string, as the Python `encode("utf-8")`; the
byte list equals the content of `String.toUTF8`. -/
def strBytes (s : String) : List Nat :=
  (s.data.flatMap String.utf8EncodeChar).map (fun b => b.toNat)

/-- Split a byte list into 64-byte chunks; the fuel argument (any bound
on the number of chunks, here the input length) keeps the recursion
structural. -/
def toBlocksAux : Nat → List Nat → List (List Nat)
  | 0, _ => []
  | _, [] => []
  | fuel + 1, a :: rest =>
      (a :: List.take 63 rest) :: toBlocksAux fuel (List.drop 63 rest)

/-- Split a byte list into 64-byte chunks. -/
def toBlocks (l : List Nat) : List (List Nat) := toBlocksAux l.length l

/-- Little-endian 8-byte rendering of a 64-bit length. -/
def le64 (n : Nat) : List Nat :=
  [n % 256, n / 256 % 256, n / 65536 % 256, n / 16777216 % 256,
   n / 4294967296 % 256, n / 1099511627776 % 256,
   n / 281474976710656 % 256, n / 72057594037927936 % 256]

/-- Big-endian 8-byte rendering of a 64-bit length. -/
def be64 (n : Nat) : List Nat :=
  [n / 72057594037927936 % 256, n / 281474976710656 % 256,
   n / 1099511627776 % 256, n / 4294967296 % 256,
   n / 16777216 % 256, n / 65536 % 256, n / 256 % 256, n % 256]

/-- MD5 padding: a `0x80` byte, zeros to 56 mod 64, then the bit length
little-endian. -/
def md5Pad (msg : List Nat) : List Nat :=
  msg ++ 128 :: (List.replicate ((119 - msg.length % 64) % 64) 0 ++
    le64 ((msg.length * 8) % 18446744073709551616))

/-- The 64 MD5 sine-derived round constants. -/
def md5K : List Nat :=
  [0xd76aa478, 0xe8c7b756, 0x242070db, 0xc1bdceee,
   0xf57c0faf, 0x4787c62a, 0xa8304613, 0xfd469501,
   0x698098d8, 0x8b44f7af, 0xffff5bb1, 0x895cd7be,
   0x6b901122, 0xfd987193, 0xa679438e, 0x49b40821,
   0xf61e2562, 0xc040b340, 0x265e5a51, 0xe9b6c7aa,
   0xd62f105d, 0x02441453, 0xd8a1e681, 0xe7d3fbc8,
   0x21e1cde6, 0xc33707d6, 0xf4d50d87, 0x455a14ed,
   0xa9e3e905, 0xfcefa3f8, 0x676f02d9, 0x8d2a4c8a,
   0xfffa3942, 0x8771f681, 0x6d9d6122, 0xfde5380c,
   0xa4beea44, 0x4bdecfa9, 0xf6bb4b60, 0xbebfbc70,
   0x289b7ec6, 0xeaa127fa, 0xd4ef3085, 0x04881d05,
   0xd9d4d039, 0xe6db99e5, 0x1fa27cf8, 0xc4ac5665,
   0xf4292244, 0x432aff97, 0xab9423a7, 0xfc93a039,
   0x655b59c3, 0x8f0ccc92, 0xffeff47d, 0x85845dd1,
   0x6fa87e4f, 0xfe2ce6e0, 0xa3014314, 0x4e0811a1,
   0xf7537e82, 0xbd3af235, 0x2ad7d2bb, 0xeb86d391]

/-- The 64 MD5 per-round rotation amounts. -/
def md5S : List Nat :=
  [7, 12, 17, 22, 7, 12, 17, 22, 7, 12, 17, 22, 7, 12, 17, 22,
   5, 9, 14, 20, 5, 9, 14, 20, 5, 9, 14, 20, 5, 9, 14, 20,
   4, 11, 16, 23, 4, 11, 16, 23, 4, 11, 16, 23, 4, 11, 16, 23,
   6, 10, 15, 21, 6, 10, 15, 21, 6, 10, 15, 21, 6, 10, 15, 21]

/-- The MD5 round function. -/
def md5F (i b c d : Nat) : Nat :=
  if i < 16 then (b &&& c) ||| (bnot32 b &&& d)
  else if i < 32 then (d &&& b) ||| (bnot32 d &&& c)
  else if i < 48 then b ^^^ c ^^^ d
  else c ^^^ (b ||| bnot32 d)

/-- The MD5 message-word index for round `i`. -/
def md5G (i : Nat) : Nat :=
  if i < 16 then i
  else if i < 32 then (5 * i + 1) % 16
  else if i < 48 then (3 * i + 5) % 16
  else (7 * i) % 16

/-- Little-endian 32-bit word `g` of a 64-byte block. -/
def word32LE (block : List Nat) (g : Nat) : Nat :=
  block.getD (4 * g) 0 + 256 * (block.getD (4 * g + 1) 0 +
    256 * (block.getD (4 * g + 2) 0 + 256 * block.getD (4 * g + 3) 0))

/-- One MD5 round. -/
def md5Step (block : List Nat) (st : Nat × Nat × Nat × Nat) (i : Nat) :
    Nat × Nat × Nat × Nat :=
  let f := (md5F i st.2.1 st.2.2.1 st.2.2.2 + st.1 + md5K.getD i 0 +
    word32LE block (md5G i)) % 4294967296
  (st.2.2.2, (st.2.1 + rotl32 f (md5S.getD i 0)) % 4294967296,
   st.2.1, st.2.2.1)

/-- Process one 64-byte block. -/
def md5Process (st : Nat × Nat × Nat × Nat) (block : List Nat) :
    Nat × Nat × Nat × Nat :=
  let r := (List.range 64).foldl (md5Step block) st
  ((st.1 + r.1) % 4294967296, (st.2.1 + r.2.1) % 4294967296,
   (st.2.2.1 + r.2.2.1) % 4294967296, (st.2.2.2 + r.2.2.2) % 4294967296)

/-- The MD5 state after all blocks. -/
def md5Digest (msg : List Nat) : Nat × Nat × Nat × Nat :=
  (toBlocks (md5Pad msg)).foldl md5Process
    (0x67452301, 0xefcdab89, 0x98badcfe, 0x10325476)

/-- Little-endian bytes of a 32-bit word. -/
def word32ToLE (w : Nat) : List Nat :=
  [w % 256, w / 256 % 256, w / 65536 % 256, w / 16777216 % 256]

/-- The 16 digest bytes of MD5. -/
def md5Bytes (msg : List Nat) : List Nat :=
  word32ToLE (md5Digest msg).1 ++ word32ToLE (md5Digest msg).2.1 ++
  word32ToLE (md5Digest msg).2.2.1 ++ word32ToLE (md5Digest msg).2.2.2

/-- Lower-case hexadecimal digit character. -/
def hexChar (d : Nat) : Char :=
  if d < 10 then digitChar d else Char.ofNat (87 + d)

/-- Lower-case hexadecimal rendering of a byte list (`hexdigest`). -/
def hexdigest (bytes : List Nat) : List Char :=
  bytes.flatMap (fun b => [hexChar (b / 16), hexChar (b % 16)])

/-- Model of `generate_student_id`: hash of the two inputs joined by the
fixed `_` separator, first 8 hex characters, upper-cased. -/
def generate_student_id (student_name class_category : String) : String :=
  String.mk
    (((hexdigest (md5Bytes (strBytes (student_name ++ "_" ++ class_category)))).take 8).map
      Char.toUpper)

/-! ## Credential store: SHA-256 and the user operations -/

/-- The 64 SHA-256 round constants (the standard cube-root-derived
words, written in decimal). -/
def sha256K : List Nat :=
  [1116352408, 1899447441, 3049323471, 3921009573,
   961987163, 1508970993, 2453635748, 2870763221,
   3624381080, 310598401, 607225278, 1426881987,
   1925078388, 2162078206, 2614888103, 3248222580,
   3835390401, 4022224774, 264347078, 604807628,
   770255983, 1249150122, 1555081692, 1996064986,
   2554220882, 2821834349, 2952996808, 3210313671,
   3336571891, 3584528711, 113926993, 338241895,
   666307205, 773529912, 1294757372, 1396182291,
   1695183700, 1986661051, 2177026350, 2456956037,
   2730485921, 2820302411, 3259730800, 3345764771,
   3516065817, 3600352804, 4094571909, 275423344,
   430227734, 506948616, 659060556, 883997877,
   958139571, 1322822218, 1537002063, 1747873779,
   1955562222, 2024104815, 2227730452, 2361852424,
   2428436474, 2756734187, 3204031479, 3329325298]

/-- SHA-256 padding: like MD5 but with the bit length big-endian. -/
def sha256Pad (msg : List Nat) : List Nat :=
  msg ++ 128 :: (List.replicate ((119 - msg.length % 64) % 64) 0 ++
    be64 ((msg.length * 8) % 18446744073709551616))

/-- Big-endian 32-bit word `i` of a 64-byte block. -/
def word32BE (block : List Nat) (i : Nat) : Nat :=
  block.getD (4 * i + 3) 0 + 256 * (block.getD (4 * i + 2) 0 +
    256 * (block.getD (4 * i + 1) 0 + 256 * block.getD (4 * i) 0))

/-- The 64-entry SHA-256 message schedule of one block. -/
def sha256Schedule (block : List Nat) : List Nat :=
  (List.range 64).foldl
    (fun w i =>
      if i < 16 then w ++ [word32BE block i]
      else
        let x := w.getD (i - 15) 0
        let y := w.getD (i - 2) 0
        let s0 := rotr32 x 7 ^^^ rotr32 x 18 ^^^ (x >>> 3)
        let s1 := rotr32 y 17 ^^^ rotr32 y 19 ^^^ (y >>> 10)
        w ++ [(w.getD (i - 16) 0 + s0 + w.getD (i - 7) 0 + s1) % 4294967296])
    []

/-- One SHA-256 compression round; the state is the 8-word list
`[a, b, c, d, e, f, g, h]`. -/
def sha256Step (w : List Nat) (st : List Nat) (i : Nat) : List Nat :=
  let a := st.getD 0 0
  let b := st.getD 1 0
  let c := st.getD 2 0
  let d := st.getD 3 0
  let e := st.getD 4 0
  let f := st.getD 5 0
  let g := st.getD 6 0
  let hh := st.getD 7 0
  let s1 := rotr32 e 6 ^^^ rotr32 e 11 ^^^ rotr32 e 25
  let ch := (e &&& f) ^^^ (bnot32 e &&& g)
  let temp1 := (hh + s1 + ch + sha256K.getD i 0 + w.getD i 0) % 4294967296
  let s0 := rotr32 a 2 ^^^ rotr32 a 13 ^^^ rotr32 a 22
  let maj := (a &&& b) ^^^ (a &&& c) ^^^ (b &&& c)
  let temp2 := (s0 + maj) % 4294967296
  [(temp1 + temp2) % 4294967296, a, b, c, (d + temp1) % 4294967296, e, f, g]

/-- Process one 64-byte block of SHA-256. -/
def sha256Process (st : List Nat) (block : List Nat) : List Nat :=
  let w := sha256Schedule block
  let st2 := (List.range 64).foldl (sha256Step w) st
  (List.range 8).map (fun i => (st.getD i 0 + st2.getD i 0) % 4294967296)

/-- Big-endian bytes of a 32-bit word. -/
def word32ToBE (w : Nat) : List Nat :=
  [w / 16777216 % 256, w / 65536 % 256, w / 256 % 256, w % 256]

/-- The 32 digest bytes of SHA-256; the initial state is the standard
square-root-derived words, written in decimal. -/
def sha256Bytes (msg : List Nat) : List Nat :=
  ((toBlocks (sha256Pad msg)).foldl sha256Process
    [1779033703, 3144134277, 1013904242, 2773480762,
     1359893119, 2600822924, 528734635, 1541459225]).flatMap word32ToBE

/-- Hexadecimal SHA-256 digest of a string (`sha256(x.encode(
"utf-8")).hexdigest()`). -/
def sha256Hex (s : String) : String :=
  String.mk (hexdigest (sha256Bytes (strBytes s)))

/-- Model of `hash_password`. -/
def hash_password (password : String) : String := sha256Hex password

/-- Model of `verify_password`. -/
def verify_password (stored_password provided_password : String) : Bool :=
  stored_password == sha256Hex provided_password

/-- One account of the JSON user store. -/
structure UserEntry where
  password : String
  is_admin : Bool
  created_at : String
deriving DecidableEq, Repr

/-- Model of `authenticate_user`. The store argument is `none` when the
backing file cannot be read (the caught-exception path, which returns
false). Session-state side effects are out of scope; only the returned
boolean is modelled. -/
def authenticate_user (db : Option (List (String × UserEntry)))
    (username password : String) : Bool :=
  match db with
  | none => false
  | some users =>
      match users.lookup username with
      | some e => verify_password e.password password
      | none => false

/-- Model of `create_user`: an absent file behaves as an empty store; a
present username fails before any write; otherwise the new account is
appended (dict insertion order) and the store rewritten. The second
component is the file content after the call. -/
def create_user (file : Option (List (String × UserEntry)))
    (username password : String) (is_admin : Bool) (now : String) :
    (Bool × String) × Option (List (String × UserEntry)) :=
  let users := file.getD []
  match users.lookup username with
  | some _ => ((false, "Username already exists"), file)
  | none =>
      ((true, "User created successfully"),
       some (users ++
         [(username,
           { password := hash_password password, is_admin := is_admin,
             created_at := now })]))

/-- Outcome of the delete-user action. -/
inductive DeleteResult
  | prot
  | notFound
  | ok
deriving DecidableEq, Repr

/-- Model of the delete-user flow: deleting the currently authenticated
account or the reserved `admin` account is refused before the store is
read; otherwise the key is removed when present and the store
rewritten, and a missing key reports not-found. -/
def delete_user (current_user : String) (users : List (String × UserEntry))
    (target : String) : DeleteResult × List (String × UserEntry) :=
  if target = current_user then (.prot, users)
  else if target = "admin" then (.prot, users)
  else
    match users.lookup target with
    | some _ => (.ok, users.filter (fun kv => kv.1 != target))
    | none => (.notFound, users)

/-! ## Concrete example inputs used by the claim theorems -/

/-- A record-store file with the full 12-column header and one data
row. -/
def exC1File : RawFile :=
  { cols := expected_columns,
    cells := [[some "A1B2C3D4", some "Ali", some "Class 1", none,
               some "APRIL", some "500", some "0", some "0", some "500",
               some "01-04-2024", some "NK", some "01-04-2024 10:00"]] }

/-- On-disk state before the reinitialize button: the one-row store, no
backups. -/
def exC1State : SysState := { csvFile := some exC1File, backups := [] }

/-- The two-record input of the yearly-report scenario. -/
def exC2 : List FeeRecord :=
  [{ id := some "X", studentName := some "Ali", classCategory := some "Class 1",
     classSection := none, month := some "APRIL", monthlyFee := some 500,
     annualCharges := some 0, admissionFee := some 0, receivedAmount := some 500,
     date := none, signature := none, entryTimestamp := none },
   { id := some "X", studentName := some "Ali", classCategory := some "Class 1",
     classSection := none, month := some "MAY", monthlyFee := some 0,
     annualCharges := some 0, admissionFee := some 0, receivedAmount := some 0,
     date := none, signature := none, entryTimestamp := none }]

/-- The expected 12-row monthly table of the scenario. -/
def exC2Expected : List MonthlyReportRow :=
  [{ month := "APRIL", monthlyFee := 500, receivedAmount := 500, status := "Paid" },
   { month := "MAY", monthlyFee := 0, receivedAmount := 0, status := "Unpaid" },
   { month := "JUNE", monthlyFee := 0, receivedAmount := 0, status := "Unpaid" },
   { month := "JULY", monthlyFee := 0, receivedAmount := 0, status := "Unpaid" },
   { month := "AUGUST", monthlyFee := 0, receivedAmount := 0, status := "Unpaid" },
   { month := "SEPTEMBER", monthlyFee := 0, receivedAmount := 0, status := "Unpaid" },
   { month := "OCTOBER", monthlyFee := 0, receivedAmount := 0, status := "Unpaid" },
   { month := "NOVEMBER", monthlyFee := 0, receivedAmount := 0, status := "Unpaid" },
   { month := "DECEMBER", monthlyFee := 0, receivedAmount := 0, status := "Unpaid" },
   { month := "JANUARY", monthlyFee := 0, receivedAmount := 0, status := "Unpaid" },
   { month := "FEBRUARY", monthlyFee := 0, receivedAmount := 0, status := "Unpaid" },
   { month := "MARCH", monthlyFee := 0, receivedAmount := 0, status := "Unpaid" }]

/-- A store file missing the Signature and Entry Timestamp columns, with
one non-empty row. -/
def exC4File : RawFile :=
  { cols := [.id, .studentName, .classCategory, .classSection, .month,
             .monthlyFee, .annualCharges, .admissionFee, .receivedAmount, .date],
    cells := [[some "A1B2C3D4", some "Ali", some "Class 1", none,
               some "APRIL", some "500", some "0", some "0", some "500",
               some "2024-04-01"]] }

/-- The single loaded row of `exC4File`, date normalized, missing
columns back-filled. -/
def exC4Row : Row :=
  { id := some "A1B2C3D4", studentName := some "Ali",
    classCategory := some "Class 1", classSection := none,
    month := some "APRIL", monthlyFee := some "500",
    annualCharges := some "0", admissionFee := some "0",
    receivedAmount := some "500", date := some "01-04-2024",
    signature := none, entryTimestamp := none }

/-- Two class-1 records whose months differ between lexicographic and
academic order: MAY precedes AUGUST academically, follows it
alphabetically. -/
def exC5 : List FeeRecord :=
  [{ id := some "X", studentName := some "Ali", classCategory := some "Class 1",
     classSection := none, month := some "MAY", monthlyFee := some 200,
     annualCharges := some 0, admissionFee := some 0, receivedAmount := some 200,
     date := none, signature := none, entryTimestamp := none },
   { id := some "Y", studentName := some "Sara", classCategory := some "Class 1",
     classSection := none, month := some "AUGUST", monthlyFee := some 300,
     annualCharges := some 0, admissionFee := some 0, receivedAmount := some 300,
     date := none, signature := none, entryTimestamp := none }]

/-- Two students in Class 1: Sara with a zero-fee row (and also a paid
row), Ahmed with positive fees in every row. -/
def exC6 : List FeeRecord :=
  [{ id := some "S", studentName := some "Sara", classCategory := some "Class 1",
     classSection := none, month := some "APRIL", monthlyFee := some 0,
     annualCharges := some 0, admissionFee := some 0, receivedAmount := some 0,
     date := none, signature := none, entryTimestamp := none },
   { id := some "S", studentName := some "Sara", classCategory := some "Class 1",
     classSection := none, month := some "MAY", monthlyFee := some 500,
     annualCharges := some 0, admissionFee := some 0, receivedAmount := some 500,
     date := none, signature := none, entryTimestamp := none },
   { id := some "A", studentName := some "Ahmed", classCategory := some "Class 1",
     classSection := none, month := some "APRIL", monthlyFee := some 500,
     annualCharges := some 0, admissionFee := some 0, receivedAmount := some 500,
     date := none, signature := none, entryTimestamp := none }]

/-- The APRIL row of the expected monthly table. -/
def exC2April : MonthlyReportRow :=
  { month := "APRIL", monthlyFee := 500, receivedAmount := 500,
    status := "Paid" }

/-- A two-account credential store. -/
def exUsers : List (String × UserEntry) :=
  [("admin", { password := "h1", is_admin := true, created_at := "t1" }),
   ("bob", { password := "h2", is_admin := false, created_at := "t2" })]

/-! ## Helper lemmas: digits and date round-trips -/

lemma digitChar_spec {d : Nat} (h : d < 10) :
    (digitChar d).isDigit = true ∧ digVal (digitChar d) = d ∧
    digitChar d ≠ '-' ∧ digitChar d ≠ ' ' ∧ digitChar d ≠ ':' := by
  interval_cases d <;> exact ⟨by decide, by decide, by decide, by decide, by decide⟩

lemma digVal_le_of_isDigit {c : Char} (h : c.isDigit = true) : digVal c ≤ 9 := by
  simp only [Char.isDigit, ge_iff_le, Bool.and_eq_true, decide_eq_true_eq] at h
  have h2 : c.val.toNat ≤ 57 := UInt32.toNat_le_of_le (by decide) h.2
  show c.val.toNat - 48 ≤ 9
  omega

lemma parse2_pad2 (n : Nat) (h : n < 100) (rest : List Char) :
    parse2 (pad2 n ++ rest) = some (n, rest) := by
  obtain ⟨h1, h2, -, -, -⟩ := digitChar_spec (show n / 10 < 10 by omega)
  obtain ⟨h3, h4, -, -, -⟩ := digitChar_spec (show n % 10 < 10 by omega)
  show (if (digitChar (n / 10)).isDigit ∧ (digitChar (n % 10)).isDigit then
      some (twoDig (digitChar (n / 10)) (digitChar (n % 10)), rest)
    else none) = some (n, rest)
  rw [if_pos ⟨h1, h3⟩]
  have e : twoDig (digitChar (n / 10)) (digitChar (n % 10)) = n := by
    simp only [twoDig, h2, h4]; omega
  rw [e]

lemma parse4_pad4 (n : Nat) (h : n < 10000) (rest : List Char) :
    parse4 (pad4 n ++ rest) = some (n, rest) := by
  obtain ⟨h1, h2, -, -, -⟩ := digitChar_spec (show n / 1000 < 10 by omega)
  obtain ⟨h3, h4, -, -, -⟩ := digitChar_spec (show n / 100 % 10 < 10 by omega)
  obtain ⟨h5, h6, -, -, -⟩ := digitChar_spec (show n / 10 % 10 < 10 by omega)
  obtain ⟨h7, h8, -, -, -⟩ := digitChar_spec (show n % 10 < 10 by omega)
  show (if (digitChar (n / 1000)).isDigit ∧ (digitChar (n / 100 % 10)).isDigit ∧
      (digitChar (n / 10 % 10)).isDigit ∧ (digitChar (n % 10)).isDigit then
      some (fourDig (digitChar (n / 1000)) (digitChar (n / 100 % 10))
        (digitChar (n / 10 % 10)) (digitChar (n % 10)), rest)
    else none) = some (n, rest)
  rw [if_pos ⟨h1, h3, h5, h7⟩]
  have e : fourDig (digitChar (n / 1000)) (digitChar (n / 100 % 10))
      (digitChar (n / 10 % 10)) (digitChar (n % 10)) = n := by
    simp only [fourDig, h2, h4, h6, h8]; omega
  rw [e]

lemma parse2_pad2_nil (n : Nat) (h : n < 100) :
    parse2 (pad2 n) = some (n, []) := by
  have := parse2_pad2 n h []
  rwa [List.append_nil] at this

lemma parse4_pad4_nil (n : Nat) (h : n < 10000) :
    parse4 (pad4 n) = some (n, []) := by
  have := parse4_pad4 n h []
  rwa [List.append_nil] at this

lemma expectChar_cons (c : Char) (rest : List Char) :
    expectChar c (c :: rest) = some rest := by
  show (if c = c then some rest else none) = some rest
  rw [if_pos rfl]

lemma parseDMY_fmtDMY {d mo y : Nat} (hd1 : 1 ≤ d) (hd2 : d ≤ 31)
    (hm1 : 1 ≤ mo) (hm2 : mo ≤ 12) (hy : y ≤ 9999) :
    parseDMY (fmtDMY (d, mo, y)) = some (d, mo, y) := by
  have e1 : (fmtDMY (d, mo, y)).data =
      pad2 d ++ '-' :: (pad2 mo ++ '-' :: pad4 y) := rfl
  simp only [parseDMY, e1, parse2_pad2 d (by omega), expectChar_cons,
    parse2_pad2 mo (by omega), parse4_pad4_nil y (by omega), expectEnd,
    Option.bind_eq_bind, Option.some_bind]
  rw [if_pos ⟨hd1, hd2, hm1, hm2⟩]

lemma parseTSnorm_fmtTS {d mo y hh mm : Nat} (hd1 : 1 ≤ d) (hd2 : d ≤ 31)
    (hm1 : 1 ≤ mo) (hm2 : mo ≤ 12) (hy : y ≤ 9999) (hh1 : hh ≤ 23)
    (hm3 : mm ≤ 59) :
    parseTSnorm (fmtTS (d, mo, y, hh, mm)) = some (d, mo, y, hh, mm) := by
  have e1 : (fmtTS (d, mo, y, hh, mm)).data =
      pad2 d ++ '-' :: (pad2 mo ++ '-' :: (pad4 y ++
        ' ' :: (pad2 hh ++ ':' :: pad2 mm))) := rfl
  simp only [parseTSnorm, e1, parse2_pad2 d (by omega), expectChar_cons,
    parse2_pad2 mo (by omega), parse4_pad4 y (by omega),
    parse2_pad2 hh (by omega), parse2_pad2_nil mm (by omega), expectEnd,
    Option.bind_eq_bind, Option.some_bind]
  rw [if_pos ⟨hd1, hd2, hm1, hm2, hh1, hm3⟩]

lemma parse2_bound {l : List Char} {v : Nat} {rest : List Char}
    (h : parse2 l = some (v, rest)) : v ≤ 99 := by
  unfold parse2 at h
  split at h
  case h_1 a b rest2 =>
    split at h
    case isTrue hc =>
      have ha := digVal_le_of_isDigit hc.1
      have hb := digVal_le_of_isDigit hc.2
      simp only [Option.some.injEq, Prod.mk.injEq] at h
      obtain ⟨rfl, rfl⟩ := h
      simp only [twoDig]; omega
    case isFalse => exact absurd h (by simp)
  case h_2 => exact absurd h (by simp)

lemma parse4_bound {l : List Char} {v : Nat} {rest : List Char}
    (h : parse4 l = some (v, rest)) : v ≤ 9999 := by
  unfold parse4 at h
  split at h
  case h_1 a b c d rest2 =>
    split at h
    case isTrue hc =>
      have ha := digVal_le_of_isDigit hc.1
      have hb := digVal_le_of_isDigit hc.2.1
      have hcc := digVal_le_of_isDigit hc.2.2.1
      have hd := digVal_le_of_isDigit hc.2.2.2
      simp only [Option.some.injEq, Prod.mk.injEq] at h
      obtain ⟨rfl, rfl⟩ := h
      simp only [fourDig]; omega
    case isFalse => exact absurd h (by simp)
  case h_2 => exact absurd h (by simp)

lemma parseDMY_bounds {s : String} {t : Nat × Nat × Nat}
    (h : parseDMY s = some t) :
    1 ≤ t.1 ∧ t.1 ≤ 31 ∧ 1 ≤ t.2.1 ∧ t.2.1 ≤ 12 ∧ t.2.2 ≤ 9999 := by
  simp only [parseDMY, Option.bind_eq_bind, Option.bind_eq_some] at h
  obtain ⟨⟨d, r1⟩, hp1, r2, hp2, ⟨mo, r3⟩, hp3, r4, hp4, ⟨y, r5⟩, hp5,
    u, hp6, hif⟩ := h
  have hy := parse4_bound hp5
  split at hif
  case isTrue hc =>
    simp only [Option.some.injEq] at hif
    subst hif
    exact ⟨hc.1, hc.2.1, hc.2.2.1, hc.2.2.2, hy⟩
  case isFalse => exact absurd hif (by simp)

lemma parseYMD_bounds {s : String} {t : Nat × Nat × Nat}
    (h : parseYMD s = some t) :
    1 ≤ t.1 ∧ t.1 ≤ 31 ∧ 1 ≤ t.2.1 ∧ t.2.1 ≤ 12 ∧ t.2.2 ≤ 9999 := by
  simp only [parseYMD, Option.bind_eq_bind, Option.bind_eq_some] at h
  obtain ⟨⟨y, r1⟩, hp1, r2, hp2, ⟨mo, r3⟩, hp3, r4, hp4, ⟨d, r5⟩, hp5,
    u, hp6, hif⟩ := h
  have hy := parse4_bound hp1
  split at hif
  case isTrue hc =>
    simp only [Option.some.injEq] at hif
    subst hif
    exact ⟨hc.1, hc.2.1, hc.2.2.1, hc.2.2.2, hy⟩
  case isFalse => exact absurd hif (by simp)

lemma parseDate_bounds {s : String} {t : Nat × Nat × Nat}
    (h : parseDate s = some t) :
    1 ≤ t.1 ∧ t.1 ≤ 31 ∧ 1 ≤ t.2.1 ∧ t.2.1 ≤ 12 ∧ t.2.2 ≤ 9999 := by
  unfold parseDate at h
  split at h
  case h_1 t' heq =>
    simp only [Option.some.injEq] at h
    subst h
    exact parseDMY_bounds heq
  case h_2 => exact parseYMD_bounds h

lemma parseDate_fmtDMY {t : Nat × Nat × Nat}
    (hb : 1 ≤ t.1 ∧ t.1 ≤ 31 ∧ 1 ≤ t.2.1 ∧ t.2.1 ≤ 12 ∧ t.2.2 ≤ 9999) :
    parseDate (fmtDMY t) = some t := by
  obtain ⟨d, mo, y⟩ := t
  unfold parseDate
  rw [parseDMY_fmtDMY hb.1 hb.2.1 hb.2.2.1 hb.2.2.2.1 hb.2.2.2.2]

lemma normDateCell_idem (c : Option String) :
    normDateCell (normDateCell c) = normDateCell c := by
  cases c with
  | none => rfl
  | some s =>
    show normDateCell ((parseDate s).map fmtDMY) = (parseDate s).map fmtDMY
    cases hp : parseDate s with
    | none => rfl
    | some t =>
      show (parseDate (fmtDMY t)).map fmtDMY = some (fmtDMY t)
      rw [parseDate_fmtDMY (parseDate_bounds hp)]
      rfl

lemma parseTSnorm_bounds {s : String} {t : Nat × Nat × Nat × Nat × Nat}
    (h : parseTSnorm s = some t) :
    1 ≤ t.1 ∧ t.1 ≤ 31 ∧ 1 ≤ t.2.1 ∧ t.2.1 ≤ 12 ∧ t.2.2.1 ≤ 9999 ∧
    t.2.2.2.1 ≤ 23 ∧ t.2.2.2.2 ≤ 59 := by
  simp only [parseTSnorm, Option.bind_eq_bind, Option.bind_eq_some] at h
  obtain ⟨⟨d, r1⟩, hp1, r2, hp2, ⟨mo, r3⟩, hp3, r4, hp4, ⟨y, r5⟩, hp5, r6, hp6,
    ⟨hh, r7⟩, hp7, r8, hp8, ⟨mm, r9⟩, hp9, u, hp10, hif⟩ := h
  have hy := parse4_bound hp5
  split at hif
  case isTrue hc =>
    simp only [Option.some.injEq] at hif
    subst hif
    exact ⟨hc.1, hc.2.1, hc.2.2.1, hc.2.2.2.1, hy, hc.2.2.2.2.1, hc.2.2.2.2.2⟩
  case isFalse => exact absurd hif (by simp)

lemma parseTSentry_bounds {s : String} {t : Nat × Nat × Nat × Nat × Nat}
    (h : parseTSentry s = some t) :
    1 ≤ t.1 ∧ t.1 ≤ 31 ∧ 1 ≤ t.2.1 ∧ t.2.1 ≤ 12 ∧ t.2.2.1 ≤ 9999 ∧
    t.2.2.2.1 ≤ 23 ∧ t.2.2.2.2 ≤ 59 := by
  simp only [parseTSentry, Option.bind_eq_bind, Option.bind_eq_some] at h
  obtain ⟨⟨y, r1⟩, hp1, r2, hp2, ⟨mo, r3⟩, hp3, r4, hp4, ⟨d, r5⟩, hp5, r6, hp6,
    ⟨hh, r7⟩, hp7, r8, hp8, ⟨mm, r9⟩, hp9, r10, hp10, ⟨ss, r11⟩, hp11,
    u, hp12, hif⟩ := h
  have hy := parse4_bound hp1
  split at hif
  case isTrue hc =>
    simp only [Option.some.injEq] at hif
    subst hif
    exact ⟨hc.1, hc.2.1, hc.2.2.1, hc.2.2.2.1, hy, hc.2.2.2.2.1,
      hc.2.2.2.2.2.1⟩
  case isFalse => exact absurd hif (by simp)

lemma parseTS_bounds {s : String} {t : Nat × Nat × Nat × Nat × Nat}
    (h : parseTS s = some t) :
    1 ≤ t.1 ∧ t.1 ≤ 31 ∧ 1 ≤ t.2.1 ∧ t.2.1 ≤ 12 ∧ t.2.2.1 ≤ 9999 ∧
    t.2.2.2.1 ≤ 23 ∧ t.2.2.2.2 ≤ 59 := by
  unfold parseTS at h
  split at h
  case h_1 t' heq =>
    simp only [Option.some.injEq] at h
    subst h
    exact parseTSnorm_bounds heq
  case h_2 => exact parseTSentry_bounds h

lemma parseTS_fmtTS {t : Nat × Nat × Nat × Nat × Nat}
    (hb : 1 ≤ t.1 ∧ t.1 ≤ 31 ∧ 1 ≤ t.2.1 ∧ t.2.1 ≤ 12 ∧ t.2.2.1 ≤ 9999 ∧
      t.2.2.2.1 ≤ 23 ∧ t.2.2.2.2 ≤ 59) :
    parseTS (fmtTS t) = some t := by
  obtain ⟨d, mo, y, hh, mm⟩ := t
  unfold parseTS
  rw [parseTSnorm_fmtTS hb.1 hb.2.1 hb.2.2.1 hb.2.2.2.1 hb.2.2.2.2.1
    hb.2.2.2.2.2.1 hb.2.2.2.2.2.2]

lemma normTSCell_idem (c : Option String) :
    normTSCell (normTSCell c) = normTSCell c := by
  cases c with
  | none => rfl
  | some s =>
    show normTSCell ((parseTS s).map fmtTS) = (parseTS s).map fmtTS
    cases hp : parseTS s with
    | none => rfl
    | some t =>
      show (parseTS (fmtTS t)).map fmtTS = some (fmtTS t)
      rw [parseTS_fmtTS (parseTS_bounds hp)]
      rfl

/-! ## Helper lemmas: the record store pipeline -/

lemma normRow_idem (r : Row) : normRow (normRow r) = normRow r := by
  simp only [normRow, normDateCell_idem, normTSCell_idem]

lemma rowToRecord_serialize (r : Row) :
    rowToRecord expected_columns (serializeRow r) = r := rfl

lemma load_elem_fixed {f : RawFile} {r : Row}
    (h : r ∈ load_data (.parsed f)) :
    normRow r = r ∧ rowAllEmpty r = false := by
  simp only [load_data, List.mem_filter, List.mem_map] at h
  obtain ⟨⟨row, hrow, hr⟩, hpred⟩ := h
  subst hr
  exact ⟨normRow_idem _, by simpa using hpred⟩

lemma filter_map_norm_self {l : List Row}
    (h1 : ∀ r ∈ l, normRow r = r) (h2 : ∀ r ∈ l, rowAllEmpty r = false) :
    (l.map normRow).filter (fun r => !(rowAllEmpty r)) = l := by
  induction l with
  | nil => rfl
  | cons a as ih =>
      have ha1 := h1 a (List.mem_cons_self a as)
      have ha2 := h2 a (List.mem_cons_self a as)
      simp only [List.map_cons, List.filter_cons, ha1, ha2, Bool.not_false,
        if_pos]
      rw [ih (fun r hr => h1 r (List.mem_cons_of_mem a hr))
        (fun r hr => h2 r (List.mem_cons_of_mem a hr))]

lemma getCol_not_mem {cols : List Col} {row : List (Option String)} {c : Col}
    (h : c ∉ cols) : getCol cols row c = none := by
  have e : cols.findIdx? (fun c2 => c2 == c) = none :=
    List.findIdx?_eq_none_iff.mpr
      (fun x hx => beq_eq_false_iff_ne.mpr (fun e2 => h (e2 ▸ hx)))
  unfold getCol
  rw [e]

lemma rowToRecord_get (cols : List Col) (row : List (Option String)) (c : Col) :
    (rowToRecord cols row).get c = getCol cols row c := by
  cases c <;> rfl

lemma normRow_get_none {r : Row} {c : Col} (h : r.get c = none) :
    (normRow r).get c = none := by
  cases c <;> simp_all [normRow, Row.get, normDateCell, normTSCell]

/-! ## Helper lemmas: sorted grouping keys -/

lemma listLtb_trans {a b c : List Char} (h1 : listLtb a b = true)
    (h2 : listLtb b c = true) : listLtb a c = true := by
  induction a generalizing b c with
  | nil =>
      cases b with
      | nil => simp [listLtb] at h1
      | cons y ys =>
          cases c with
          | nil => simp [listLtb] at h2
          | cons z zs => rfl
  | cons x xs ih =>
      cases b with
      | nil => simp [listLtb] at h1
      | cons y ys =>
          cases c with
          | nil => simp [listLtb] at h2
          | cons z zs =>
              simp only [listLtb] at h1 h2 ⊢
              by_cases hxy : x.toNat < y.toNat <;>
                by_cases hyz : y.toNat < z.toNat
              · rw [if_pos (show x.toNat < z.toNat by omega)]
              · by_cases hzy : z.toNat < y.toNat
                · rw [if_neg hyz, if_pos hzy] at h2; cases h2
                · rw [if_pos (show x.toNat < z.toNat by omega)]
              · by_cases hyx : y.toNat < x.toNat
                · rw [if_neg hxy, if_pos hyx] at h1; cases h1
                · rw [if_pos (show x.toNat < z.toNat by omega)]
              · by_cases hyx : y.toNat < x.toNat
                · rw [if_neg hxy, if_pos hyx] at h1; cases h1
                · by_cases hzy : z.toNat < y.toNat
                  · rw [if_neg hyz, if_pos hzy] at h2; cases h2
                  · rw [if_neg hxy, if_neg hyx] at h1
                    rw [if_neg hyz, if_neg hzy] at h2
                    rw [if_neg (show ¬ x.toNat < z.toNat by omega),
                      if_neg (show ¬ z.toNat < x.toNat by omega)]
                    exact ih h1 h2

lemma listLtb_total {a b : List Char} (h : listLtb a b = false) :
    a = b ∨ listLtb b a = true := by
  induction a generalizing b with
  | nil =>
      cases b with
      | nil => exact Or.inl rfl
      | cons y ys => simp [listLtb] at h
  | cons x xs ih =>
      cases b with
      | nil => exact Or.inr rfl
      | cons y ys =>
          simp only [listLtb] at h
          by_cases h1 : x.toNat < y.toNat
          · rw [if_pos h1] at h; cases h
          · by_cases h2 : y.toNat < x.toNat
            · refine Or.inr ?_
              show listLtb (y :: ys) (x :: xs) = true
              simp only [listLtb]
              rw [if_pos h2]
            · rw [if_neg h1, if_neg h2] at h
              have e : x.toNat = y.toNat := by omega
              have hxy : x = y := Char.ext (UInt32.toNat.inj e)
              subst hxy
              rcases ih h with rfl | h3
              · exact Or.inl rfl
              · refine Or.inr ?_
                show listLtb (x :: ys) (x :: xs) = true
                simp only [listLtb]
                rw [if_neg (show ¬ x.toNat < x.toNat by omega),
                  if_neg (show ¬ x.toNat < x.toNat by omega)]
                exact h3

lemma strLtb_trans {a b c : String} (h1 : strLtb a b = true)
    (h2 : strLtb b c = true) : strLtb a c = true :=
  listLtb_trans h1 h2

lemma strLtb_total {a b : String} (h : strLtb a b = false) :
    a = b ∨ strLtb b a = true := by
  rcases listLtb_total h with he | hl
  · exact Or.inl (by cases a; cases b; exact congrArg String.mk he)
  · exact Or.inr hl

lemma mem_insertStr {s t : String} {l : List String} :
    t ∈ insertStr s l ↔ t = s ∨ t ∈ l := by
  induction l with
  | nil => simp [insertStr]
  | cons a as ih =>
      simp only [insertStr]
      split
      · simp [List.mem_cons]
      · simp only [List.mem_cons, ih]
        tauto

lemma pairwise_insertStr {s : String} {l : List String}
    (h : l.Pairwise (fun a b => strLtb a b = true)) (hs : s ∉ l) :
    (insertStr s l).Pairwise (fun a b => strLtb a b = true) := by
  induction l with
  | nil => simp [insertStr]
  | cons a as ih =>
      rcases List.pairwise_cons.mp h with ⟨ha, has⟩
      simp only [insertStr]
      by_cases hlt : strLtb s a = true
      · rw [if_pos hlt]
        refine List.pairwise_cons.mpr ⟨?_, h⟩
        intro b hb
        rcases List.mem_cons.mp hb with rfl | hb2
        · exact hlt
        · exact strLtb_trans hlt (ha b hb2)
      · rw [if_neg hlt]
        have hne : s ≠ a := fun e => hs (e ▸ List.mem_cons_self a as)
        have hgt : strLtb a s = true := by
          rcases strLtb_total (Bool.not_eq_true _ ▸ hlt : strLtb s a = false)
            with he | hg
          · exact absurd he hne
          · exact hg
        refine List.pairwise_cons.mpr
          ⟨?_, ih has (fun hmem => hs (List.mem_cons_of_mem a hmem))⟩
        intro b hb
        rcases mem_insertStr.mp hb with rfl | hb2
        · exact hgt
        · exact ha b hb2

lemma mem_sortStrings {t : String} {l : List String} :
    t ∈ sortStrings l ↔ t ∈ l := by
  induction l with
  | nil => simp [sortStrings]
  | cons a as ih =>
      show t ∈ insertStr a (sortStrings as) ↔ _
      rw [mem_insertStr, ih, List.mem_cons]

lemma sortStrings_pairwise {l : List String} (h : l.Nodup) :
    (sortStrings l).Pairwise (fun a b => strLtb a b = true) := by
  induction l with
  | nil => simp [sortStrings]
  | cons a as ih =>
      rcases List.nodup_cons.mp h with ⟨ha, has⟩
      show (insertStr a (sortStrings as)).Pairwise _
      exact pairwise_insertStr (ih has) (fun hmem => ha (mem_sortStrings.mp hmem))

/-! ## Helper lemmas: MD5 digest shape -/

lemma md5Bytes_length (msg : List Nat) : (md5Bytes msg).length = 16 := by
  simp [md5Bytes, word32ToLE]

lemma md5Bytes_lt (msg : List Nat) : ∀ b ∈ md5Bytes msg, b < 256 := by
  intro b hb
  simp only [md5Bytes, word32ToLE, List.mem_append, List.mem_cons,
    List.not_mem_nil, or_false] at hb
  omega

lemma hexdigest_length (bs : List Nat) : (hexdigest bs).length = 2 * bs.length := by
  induction bs with
  | nil => rfl
  | cons b bs ih =>
      simp only [hexdigest, List.flatMap_cons, List.length_append,
        List.length_cons, List.length_nil]
      simp only [hexdigest] at ih
      omega

lemma mem_hexdigest {bs : List Nat} {ch : Char} (hb : ∀ b ∈ bs, b < 256)
    (h : ch ∈ hexdigest bs) : ∃ d, d < 16 ∧ ch = hexChar d := by
  induction bs with
  | nil => cases h
  | cons b bs ih =>
      simp only [hexdigest, List.flatMap_cons, List.mem_append, List.mem_cons,
        List.not_mem_nil, or_false] at h
      have hb0 : b < 256 := hb b (List.mem_cons_self b bs)
      rcases h with (rfl | rfl) | h3
      · exact ⟨b / 16, by omega, rfl⟩
      · exact ⟨b % 16, by omega, rfl⟩
      · exact ih (fun x hx => hb x (List.mem_cons_of_mem b hx)) h3

lemma hexChar_toUpper_spec (d : Nat) (h : d < 16) :
    ((hexChar d).toUpper.isDigit ||
      ('A' ≤ (hexChar d).toUpper && (hexChar d).toUpper ≤ 'F')) = true := by
  interval_cases d <;> decide

/-! ## Hash sanity vectors (RFC 1321 and FIPS 180) -/

set_option maxRecDepth 10000 in
theorem md5_known_vector :
    String.mk (hexdigest (md5Bytes (strBytes "abc"))) =
      "900150983cd24fb0d6963f7d28e17f72" := by decide

set_option maxRecDepth 10000 in
theorem sha256_known_vector :
    sha256Hex "abc" =
      "ba7816bf8f01cfea414140de5dae2223b00361a396177a9cb410ff61f20015ad" := by
  decide

/-! ## Claim theorems -/

/-- C1: the claim states that after `reinitialize()` the record store has
zero rows (and a byte-equal backup when a file existed). The code makes
the backup but `initialize_csv` only writes a fresh empty file when no
file exists; on the existing-file path it reconciles columns and keeps
every row. This theorem evaluates the model at the failing input: a
store with the full 12-column header and one data row. After the
reinitialize button the backup exists and is byte-equal, yet the store
still holds its one row — not zero. -/
theorem reinitialize_preserves_existing_rows :
    ( reinitialize "20240401_120000" exC1State).csvFile = some exC1File ∧
    ( reinitialize "20240401_120000" exC1State).backups =
      [("backup_20240401_120000.csv", exC1File)] ∧
    exC1File.cells.length = 1 := by decide

/-- C2: on the two-record input (Ali, Class 1, APRIL fee 500 received
500; MAY fee 0 received 0) the yearly report returns totalMonthlyFee
500, totalReceived 500, and its 12-month table has APRIL `Paid`, MAY
`Unpaid` and the other ten months zero-filled `Unpaid`; in general a
month of the table is `Paid` exactly when its summed Monthly Fee is
positive. -/
theorem studentYearlyReport_spec :
    ((studentYearlyReport exC2 "Ali" "Class 1").totalMonthlyFee = 500 ∧
     (studentYearlyReport exC2 "Ali" "Class 1").totalReceived = 500 ∧
     (studentYearlyReport exC2 "Ali" "Class 1").perMonth = exC2Expected) ∧
    (∀ records student category,
      ∀ row ∈ (studentYearlyReport records student category).perMonth,
        (row.status = "Paid" ↔ 0 < row.monthlyFee)) := by
  refine ⟨by decide, ?_⟩
  intro records student category row hrow
  simp only [studentYearlyReport, monthly_report, List.mem_map] at hrow
  obtain ⟨m, hm, rfl⟩ := hrow
  cases hl : (monthly_data (student_data records student category)).lookup m with
  | some fr =>
      simp only [hl]
      by_cases hf : 0 < fr.1
      · simp [hf, Nat.lt_iff_add_one_le]
      · simp only [gt_iff_lt, hf, if_neg hf]
        constructor
        · intro he; exact absurd he (by decide)
        · intro he; exact he.elim
  | none =>
      simp only [hl]
      constructor
      · intro he; exact absurd he (by decide)
      · intro he; exact absurd he (by omega)

/-- C2 witness: the general Paid-iff rule applied at the APRIL row of
the concrete report. -/
theorem studentYearlyReport_spec_witness :
    (exC2April.status = "Paid" ↔ 0 < exC2April.monthlyFee) :=
  studentYearlyReport_spec.2 exC2 "Ali" "Class 1" exC2April (by decide)

/-- C3: loading any store, rewriting it in full from the loaded rows,
and loading again yields the same record sequence (same rows, same
field values, same order); the claim holds for every store state, with
no well-formedness hypothesis needed. -/
theorem load_update_load (x : LoadInput) :
    load_data (.parsed (update_data (load_data x))) = load_data x := by
  cases x with
  | absent => rfl
  | unparseable => rfl
  | parsed f =>
      show (((load_data (.parsed f)).map serializeRow).map
          (fun row => normRow (rowToRecord expected_columns row))).filter
          (fun r => !(rowAllEmpty r)) = load_data (.parsed f)
      rw [List.map_map]
      have e : ((fun row => normRow (rowToRecord expected_columns row)) ∘
          serializeRow) = normRow := funext fun r => by
        simp only [Function.comp_apply, rowToRecord_serialize]
      rw [e]
      exact filter_map_norm_self
        (fun r hr => (load_elem_fixed hr).1)
        (fun r hr => (load_elem_fixed hr).2)

/-- C4: `load_data` returns the empty sequence for an absent file and
for unparseable content (both recoverable); when the file parses but a
column of the 12-column schema is missing from its header, every
returned record carries that column with an absent value; and every
returned record, on any input, is non-empty in at least one column
(fully empty rows are dropped). -/
theorem load_data_error_and_backfill :
    load_data .absent = [] ∧ load_data .unparseable = [] ∧
    (∀ f : RawFile, ∀ c : Col, c ∉ f.cols →
      ∀ r ∈ load_data (.parsed f), r.get c = none) ∧
    (∀ x : LoadInput, ∀ r ∈ load_data x, rowAllEmpty r = false) := by
  refine ⟨rfl, rfl, ?_, ?_⟩
  · intro f c hc r hr
    simp only [load_data, List.mem_filter, List.mem_map] at hr
    obtain ⟨⟨row, hrow, hr2⟩, hpred⟩ := hr
    subst hr2
    apply normRow_get_none
    rw [rowToRecord_get, getCol_not_mem hc]
  · intro x r hr
    cases x with
    | absent => cases hr
    | unparseable => cases hr
    | parsed f => exact (load_elem_fixed hr).2

/-- C4 witness: the backfill conclusion at a concrete file missing the
Signature column, applied to its one loaded row. -/
theorem load_data_error_and_backfill_witness :
    Row.get exC4Row Col.signature = none :=
  load_data_error_and_backfill.2.2.1 exC4File Col.signature (by decide)
    exC4Row (by decide)

/-- C5 counterexample: the claim states the monthly received series is
ordered by the academic calendar (April first). On two records with
months MAY and AUGUST the series comes out `[AUGUST, MAY]` — pandas
`groupby` sorts keys lexicographically — and that key order is not
consistent with the academic calendar, where MAY precedes AUGUST. -/
theorem monthly_summary_not_academic :
    (monthly_summary exC5 "Class 1").map Prod.fst = ["AUGUST", "MAY"] ∧
    ¬ List.Chain' (fun a b => all_months.indexOf a < all_months.indexOf b)
        ((monthly_summary exC5 "Class 1").map Prod.fst) := by
  refine ⟨by decide, ?_⟩
  intro hch
  rw [show (monthly_summary exC5 "Class 1").map Prod.fst = ["AUGUST", "MAY"]
    from by decide, List.chain'_cons] at hch
  exact absurd hch.1 (by decide)

/-- C5 amended: the monthly received series of the class summary is the
per-month sum of Received Amount over exactly the months present in the
class rows, ordered lexicographically by month label (the pandas
`groupby` default key order), with absent months omitted. -/
theorem monthly_summary_spec (records : List FeeRecord) (category : String) :
    ((monthly_summary records category).map Prod.fst).Pairwise
      (fun a b => strLtb a b = true) ∧
    (∀ p ∈ monthly_summary records category,
      p.2 = sumReceived (monthRows (class_df records category) p.1)) ∧
    (∀ m : String, (∃ v, (m, v) ∈ monthly_summary records category) ↔
      ∃ r ∈ class_df records category, r.month = some m) := by
  refine ⟨?_, ?_, ?_⟩
  · simp only [monthly_summary, List.map_map]
    have e : (Prod.fst ∘ fun m =>
        (m, sumReceived (monthRows (class_df records category) m))) = id := rfl
    rw [e, List.map_id]
    exact sortStrings_pairwise (List.nodup_dedup _)
  · intro p hp
    simp only [monthly_summary, List.mem_map] at hp
    obtain ⟨m, hm, rfl⟩ := hp
    rfl
  · intro m
    constructor
    · rintro ⟨v, hv⟩
      simp only [monthly_summary, List.mem_map, Prod.mk.injEq] at hv
      obtain ⟨m2, hm2, rfl, rfl⟩ := hv
      have := mem_sortStrings.mp hm2
      rw [List.mem_dedup, List.mem_filterMap] at this
      obtain ⟨r, hr, hr2⟩ := this
      exact ⟨r, hr, hr2⟩
    · rintro ⟨r, hr, hm⟩
      refine ⟨sumReceived (monthRows (class_df records category) m), ?_⟩
      simp only [monthly_summary, List.mem_map]
      refine ⟨m, ?_, rfl⟩
      rw [mem_sortStrings, List.mem_dedup, List.mem_filterMap]
      exact ⟨r, hr, hm⟩

/-- C5 amended witness: the sum characterization at the AUGUST entry of
the concrete series, and the key characterization at MAY. -/
theorem monthly_summary_spec_witness :
    (("AUGUST", 300) : String × Nat).2 =
      sumReceived (monthRows (class_df exC5 "Class 1") "AUGUST") ∧
    (∃ r ∈ class_df exC5 "Class 1", r.month = some "MAY") :=
  ⟨(monthly_summary_spec exC5 "Class 1").2.1 ("AUGUST", 300) (by decide),
   ((monthly_summary_spec exC5 "Class 1").2.2 "MAY").mp ⟨200, by decide⟩⟩

/-- C6: a student name is counted by the unpaid metric exactly when some
row of the class has that name with Monthly Fee 0; the counted list has
no duplicates; the metric is its length; and in the two-student
scenario (Sara has a zero-fee row and also a paid row, Ahmed only
positive fees) the metric is 1. -/
theorem unpaidStudents_spec :
    (∀ records category n, n ∈ unpaidNames records category ↔
      ∃ r ∈ records, r.classCategory = some category ∧
        r.monthlyFee = some 0 ∧ r.studentName = some n) ∧
    (∀ records category, (unpaidNames records category).Nodup) ∧
    (∀ records category,
      unpaidStudents records category = (unpaidNames records category).length) ∧
    unpaidStudents exC6 "Class 1" = 1 := by
  refine ⟨?_, fun _ _ => List.nodup_dedup _, fun _ _ => rfl, by decide⟩
  intro records category n
  simp only [unpaidNames, class_df, List.mem_dedup, List.mem_filterMap,
    List.mem_filter, beq_iff_eq]
  constructor
  · rintro ⟨r, ⟨⟨hr, hcat⟩, hfee⟩, hname⟩
    exact ⟨r, hr, hcat, hfee, hname⟩
  · rintro ⟨r, hr, hcat, hfee, hname⟩
    exact ⟨r, ⟨⟨hr, hcat⟩, hfee⟩, hname⟩

/-- C7: authentication succeeds exactly when the username is present and
the SHA-256 hash of the supplied password equals the stored hash; an
unknown username yields false whatever the password; and an unreadable
store yields false (the caught-exception path, no fault). -/
theorem authenticate_user_spec (users : List (String × UserEntry))
    (u p : String) :
    (authenticate_user (some users) u p = true ↔
      ∃ e, users.lookup u = some e ∧ hash_password p = e.password) ∧
    (users.lookup u = none → authenticate_user (some users) u p = false) ∧
    authenticate_user none u p = false := by
  refine ⟨?_, ?_, rfl⟩
  · cases hl : users.lookup u with
    | none => simp [authenticate_user, hl]
    | some e =>
        simp only [authenticate_user, hl, verify_password, hash_password,
          beq_iff_eq, Option.some.injEq]
        constructor
        · intro he; exact ⟨e, rfl, he.symm⟩
        · rintro ⟨e2, rfl, he⟩; exact he.symm
  · intro hl
    simp [authenticate_user, hl]

/-- C7 witness: an unknown username is rejected on the concrete store. -/
theorem authenticate_user_spec_witness :
    authenticate_user (some exUsers) "charlie" "pw" = false :=
  (authenticate_user_spec exUsers "charlie" "pw").2.1 (by decide)

/-- C8: deleting `admin` or the currently authenticated account is
always refused with the store untouched; deleting an absent, otherwise
unprotected name reports not-found with the store untouched; deleting a
present, unprotected name succeeds, removes every entry with that key,
and keeps every other entry. -/
theorem delete_user_spec (current : String) (users : List (String × UserEntry))
    (target : String) :
    (delete_user current users "admin" = (.prot, users)) ∧
    (delete_user current users current = (.prot, users)) ∧
    (target ≠ current → target ≠ "admin" → users.lookup target = none →
      delete_user current users target = (.notFound, users)) ∧
    (target ≠ current → target ≠ "admin" →
      ∀ e, users.lookup target = some e →
        (delete_user current users target).1 = .ok ∧
        (∀ kv ∈ (delete_user current users target).2, kv.1 ≠ target) ∧
        (∀ kv ∈ users, kv.1 ≠ target →
          kv ∈ (delete_user current users target).2)) := by
  refine ⟨?_, ?_, ?_, ?_⟩
  · by_cases h : "admin" = current
    · simp [delete_user, h]
    · simp [delete_user, h]
  · simp [delete_user]
  · intro h1 h2 hl
    simp [delete_user, h1, h2, hl]
  · intro h1 h2 e hl
    simp only [delete_user, if_neg h1, if_neg h2, hl]
    refine ⟨trivial, ?_, ?_⟩
    · intro kv hkv
      have := (List.mem_filter.mp hkv).2
      simpa [bne_iff_ne] using this
    · intro kv hkv hne
      exact List.mem_filter.mpr ⟨hkv, by simpa [bne_iff_ne]⟩

/-- C8 witness: a non-admin, non-self deletion of a present account
succeeds on the concrete store. -/
theorem delete_user_spec_witness :
    (delete_user "alice" exUsers "bob").1 = DeleteResult.ok :=
  ((delete_user_spec "alice" exUsers "bob").2.2.2 (by decide) (by decide)
    { password := "h2", is_admin := false, created_at := "t2" } (by decide)).1

/-- C9: the generated identifier of any two strings (empty included) has
exactly 8 characters, and each character is an upper-case hexadecimal
digit. The function is pure, so identical input pairs always yield the
identical result; its definition is the fixed-separator concatenation,
MD5, first 8 hex digits, upper-cased. -/
theorem generate_student_id_spec (student_name class_category : String) :
    (generate_student_id student_name class_category).length = 8 ∧
    (generate_student_id student_name class_category).data.all
      (fun ch => ch.isDigit || ('A' ≤ ch && ch ≤ 'F')) = true := by
  constructor
  · show (((hexdigest (md5Bytes (strBytes
        (student_name ++ "_" ++ class_category)))).take 8).map
        Char.toUpper).length = 8
    rw [List.length_map, List.length_take, hexdigest_length, md5Bytes_length]
    omega
  · rw [List.all_eq_true]
    intro ch hch
    have hch2 : ch ∈ ((hexdigest (md5Bytes (strBytes
        (student_name ++ "_" ++ class_category)))).take 8).map
        Char.toUpper := hch
    simp only [List.mem_map] at hch2
    obtain ⟨c0, hc0, rfl⟩ := hch2
    obtain ⟨d, hd, rfl⟩ :=
      mem_hexdigest (md5Bytes_lt _) (List.mem_of_mem_take hc0)
    exact hexChar_toUpper_spec d hd

/-- C10: creating a user whose name is already present fails with the
already-exists message and leaves the credential store content exactly
as it was. -/
theorem create_user_existing_no_write (users : List (String × UserEntry))
    (u p : String) (adm : Bool) (now : String) (e : UserEntry)
    (h : users.lookup u = some e) :
    create_user (some users) u p adm now =
      ((false, "Username already exists"), some users) := by
  simp only [create_user, Option.getD_some, h]

/-- C10 witness: creating `bob` again on the concrete store fails and
leaves the store unchanged. -/
theorem create_user_existing_no_write_witness :
    create_user (some exUsers) "bob" "pw" false "t3" =
      ((false, "Username already exists"), some exUsers) :=
  create_user_existing_no_write exUsers "bob" "pw" false "t3"
    { password := "h2", is_admin := false, created_at := "t2" } (by decide)

end SchoolFees
